import Mathlib

/-!
Verification of the 2do-mcp server (`src/twodo_mcp/server.py`) against its
natural-language specification.

Python strings are modelled at the byte level as `List Nat` (each element a
UTF-8 code unit, `< 256` where it matters).  Pure functions of the source are
translated directly; the two external capabilities (the `open` subprocess and
the `pbpaste` clipboard read) are modelled as an environment supplying the
outcome of each invocation, exactly mirroring the `try/except` structure of
`_open_url` / `_get_clipboard`.
-/

namespace Twodo

/-- Byte list of an ASCII string literal. -/
def bytes (s : String) : List Nat := s.toList.map Char.toNat

/-! ### Percent-encoding: `urllib.parse.quote` with its default `safe="/"`.

`quote` keeps ASCII letters, digits, `_.-~` (the always-safe set) and `/`
(default `safe`) and rewrites every other byte to `%XX` with uppercase hex. -/

/-- Bytes left untouched by `urllib.parse.quote(s)` (default `safe="/"`). -/
def is_safe_byte (b : Nat) : Bool :=
  decide ((65 ≤ b ∧ b ≤ 90) ∨ (97 ≤ b ∧ b ≤ 122) ∨ (48 ≤ b ∧ b ≤ 57) ∨
    b = 45 ∨ b = 46 ∨ b = 95 ∨ b = 126 ∨ b = 47)

/-- Uppercase hexadecimal digit (as its ASCII byte) of a nibble. -/
def hex_digit (n : Nat) : Nat := if n < 10 then 48 + n else 55 + n

/-- `urllib.parse.quote` on the UTF-8 bytes of a string. -/
def py_quote : List Nat → List Nat
  | [] => []
  | b :: bs =>
    (if is_safe_byte b then [b] else [37, hex_digit (b / 16), hex_digit (b % 16)]) ++ py_quote bs

/-- Value of an ASCII hex-digit byte (upper- or lowercase accepted). -/
def hex_val (c : Nat) : Option Nat :=
  if 48 ≤ c ∧ c ≤ 57 then some (c - 48)
  else if 65 ≤ c ∧ c ≤ 70 then some (c - 55)
  else if 97 ≤ c ∧ c ≤ 102 then some (c - 87)
  else none

/-- Standard percent-decoding of a query-string value, at the byte level:
`%XX` escapes become the byte `XX`, every other byte stands for itself;
malformed escapes yield `none`. -/
def percent_decode : List Nat → Option (List Nat)
  | [] => some []
  | 37 :: h :: l :: rest =>
    match hex_val h, hex_val l, percent_decode rest with
    | some hv, some lv, some r => some ((16 * hv + lv) :: r)
    | _, _, _ => none
  | 37 :: _ => none
  | c :: rest => (percent_decode rest).map (c :: ·)

theorem hex_val_hex_digit {n : Nat} (h : n < 16) : hex_val (hex_digit n) = some n := by
  interval_cases n <;> rfl

theorem is_safe_byte_ne_37 {b : Nat} (h : is_safe_byte b = true) : b ≠ 37 := by
  intro hb; subst hb; simp [is_safe_byte] at h

theorem percent_decode_cons_ne {b : Nat} (hb : b ≠ 37) (rest : List Nat) :
    percent_decode (b :: rest) = (percent_decode rest).map (b :: ·) := by
  rcases rest with _ | ⟨h1, _ | ⟨h2, t⟩⟩ <;> simp [percent_decode, hb]

/-- Percent-decoding is a left inverse of `py_quote` on byte lists. -/
theorem percent_decode_py_quote (bs : List Nat) (h : ∀ b ∈ bs, b < 256) :
    percent_decode (py_quote bs) = some bs := by
  induction bs with
  | nil => rfl
  | cons b rest ih =>
    have hb : b < 256 := h b (by simp)
    have ihr : percent_decode (py_quote rest) = some rest :=
      ih (fun x hx => h x (by simp [hx]))
    by_cases hs : is_safe_byte b = true
    · rw [py_quote, if_pos hs, List.singleton_append,
        percent_decode_cons_ne (is_safe_byte_ne_37 hs), ihr]
      rfl
    · rw [py_quote, if_neg hs]
      have hhi : b / 16 < 16 := by omega
      have hlo : b % 16 < 16 := by omega
      have hjoin : 16 * (b / 16) + b % 16 = b := by omega
      simp [percent_decode, hex_val_hex_digit hhi, hex_val_hex_digit hlo, ihr, hjoin]

/-! ### Whitespace stripping (pydantic `str_strip_whitespace` / `str.strip()`) -/

/-- ASCII bytes Python's `str.strip()` removes (tab, LF, VT, FF, CR,
FS, GS, RS, US, space). -/
def is_space_byte (b : Nat) : Bool :=
  decide (b = 9 ∨ b = 10 ∨ b = 11 ∨ b = 12 ∨ b = 13 ∨
    b = 28 ∨ b = 29 ∨ b = 30 ∨ b = 31 ∨ b = 32)

/-- `str.strip()`: drop leading and trailing whitespace. -/
def py_strip (l : List Nat) : List Nat :=
  ((l.dropWhile is_space_byte).reverse.dropWhile is_space_byte).reverse

/-! ### Enums of `server.py` (`TaskType`, `Priority`, `RepeatInterval`),
each a `str`-valued enum whose `.value` is the serialization code. -/

inductive TaskType
  | TASK
  | PROJECT
  | CHECKLIST
  deriving DecidableEq

/-- `.value` of `TaskType`: `"0"` / `"1"` / `"2"`. -/
def TaskType.value : TaskType → List Nat
  | .TASK => bytes "0"
  | .PROJECT => bytes "1"
  | .CHECKLIST => bytes "2"

inductive Priority
  | NONE
  | LOW
  | MEDIUM
  | HIGH
  deriving DecidableEq

/-- `.value` of `Priority`: `"0"` … `"3"`. -/
def Priority.value : Priority → List Nat
  | .NONE => bytes "0"
  | .LOW => bytes "1"
  | .MEDIUM => bytes "2"
  | .HIGH => bytes "3"

inductive RepeatInterval
  | DAILY
  | WEEKLY
  | BI_WEEKLY
  | MONTHLY
  deriving DecidableEq

/-- `.value` of `RepeatInterval`: `"1"` … `"4"`. -/
def RepeatInterval.value : RepeatInterval → List Nat
  | .DAILY => bytes "1"
  | .WEEKLY => bytes "2"
  | .BI_WEEKLY => bytes "3"
  | .MONTHLY => bytes "4"

/-! ### Input models (post-validation values of the pydantic models) -/

/-- `AddTaskInput`: a validated single-task creation request.  Field values
are the post-validation ones (strings already whitespace-stripped). -/
structure AddTaskInput where
  task : List Nat
  task_type : TaskType := .TASK
  for_list : Option (List Nat) := none
  note : Option (List Nat) := none
  subtasks : Option (List Nat) := none
  priority : Priority := .NONE
  starred : Bool := false
  tags : Option (List Nat) := none
  due : Option (List Nat) := none
  due_time : Option (List Nat) := none
  start : Option (List Nat) := none
  «repeat» : Option RepeatInterval := none
  action : Option (List Nat) := none
  for_parent_name : Option (List Nat) := none
  for_parent_task : Option (List Nat) := none
  ignore_defaults : Bool := false
  save_in_clipboard : Bool := true

/-- `AddMultipleTasksInput`: a validated batch request (1–50 titles; the
item titles themselves carry no length constraints). -/
structure AddMultipleTasksInput where
  tasks : List (List Nat)
  for_list : Option (List Nat) := none
  priority : Priority := .NONE
  tags : Option (List Nat) := none
  due : Option (List Nat) := none

/-- `PasteTasksInput`. -/
structure PasteTasksInput where
  text : List Nat
  in_project : List Nat
  for_list : List Nat

/-- `GetTaskIDInput`. -/
structure GetTaskIDInput where
  task : List Nat
  for_list : List Nat

/-- `ShowListInput`. -/
structure ShowListInput where
  name : List Nat

/-- `SearchInput`. -/
structure SearchInput where
  text : List Nat

/-! ### URL builder (`_build_add_url`) -/

/-- `TWODO_BASE_URL` constant. -/
def TWODO_BASE_URL : List Nat := bytes "twodo://x-callback-url"

/-- `TASK_UID_LENGTH` constant. -/
def TASK_UID_LENGTH : Nat := 32

/-- The three encoding modes of the `field_map` entries in `_build_add_url`:
`"value"` (enum `.value`, emitted verbatim), `"quote"` (percent-encoded),
`"raw"` (emitted verbatim).  Enum `.value` codes are pre-applied in
`field_map` below, so `value` and `raw` both emit verbatim. -/
inductive Mode
  | value
  | quoted
  | raw

/-- The `field_map` list of `_build_add_url` (lines 306–323): key, optional
value (with the default-omission conditions), encoding mode. -/
def field_map (p : AddTaskInput) : List (List Nat × Option (List Nat) × Mode) :=
  [ (bytes "type", if p.task_type ≠ TaskType.TASK then some p.task_type.value else none, .value),
    (bytes "forlist", p.for_list, .quoted),
    (bytes "note", p.note, .quoted),
    (bytes "subtasks", p.subtasks, .quoted),
    (bytes "priority", if p.priority ≠ Priority.NONE then some p.priority.value else none, .value),
    (bytes "starred", if p.starred then some (bytes "1") else none, .raw),
    (bytes "tags", p.tags, .quoted),
    (bytes "due", p.due, .quoted),
    (bytes "dueTime", p.due_time, .quoted),
    (bytes "start", p.start, .quoted),
    (bytes "repeat", Option.map RepeatInterval.value p.«repeat», .value),
    (bytes "action", p.action, .quoted),
    (bytes "forParentName", p.for_parent_name, .quoted),
    (bytes "forParentTask", p.for_parent_task, .quoted),
    (bytes "ignoreDefaults", if p.ignore_defaults then some (bytes "1") else none, .raw),
    (bytes "saveInClipboard", if p.save_in_clipboard then some (bytes "1") else none, .raw) ]

/-- One iteration of the encoding loop: a present field contributes one
`key=value` part, an absent (`None`) field contributes nothing. -/
def encode_entry : List Nat × Option (List Nat) × Mode → List (List Nat)
  | (_, none, _) => []
  | (k, some v, .quoted) => [k ++ 61 :: py_quote v]
  | (k, some v, .value) => [k ++ 61 :: v]
  | (k, some v, .raw) => [k ++ 61 :: v]

/-- The `parts` list accumulated by `_build_add_url`: the mandatory
`task=<quoted title>` followed by the loop over `field_map`. -/
def query_parts (p : AddTaskInput) : List (List Nat) :=
  (bytes "task" ++ 61 :: py_quote p.task) :: (field_map p).flatMap encode_entry

/-- `_build_add_url`: `f"{TWODO_BASE_URL}/add?{'&'.join(parts)}"`. -/
def build_add_url (p : AddTaskInput) : List Nat :=
  TWODO_BASE_URL ++ bytes "/add?" ++ List.intercalate [38] (query_parts p)

/-! ### Standard query-string reading (used to state the spec's claims about
the produced URI: key of a `key=value` part, value paired with a key, the
query component of a URI) -/

/-- Key of a `key=value` query part. -/
def key_of (part : List Nat) : List Nat := part.takeWhile (fun c => c != 61)

/-- Value of a `key=value` query part. -/
def value_of (part : List Nat) : List Nat := (part.dropWhile (fun c => c != 61)).drop 1

/-- Query component of a URI: everything after the first `?`. -/
def query_of (url : List Nat) : List Nat := (url.dropWhile (fun c => c != 63)).drop 1

/-- Value paired with key `k` among the `&`-separated parts. -/
def value_of_key (k : List Nat) (parts : List (List Nat)) : Option (List Nat) :=
  parts.findSome? (fun part => if key_of part == k then some (value_of part) else none)

/-- How many of the parts carry key `k`. -/
def count_key (parts : List (List Nat)) (k : List Nat) : Nat :=
  parts.countP (fun part => key_of part == k)

theorem takeWhile_ne_append {s : Nat} (a v : List Nat) (ha : ∀ c ∈ a, c ≠ s) :
    (a ++ s :: v).takeWhile (fun c => c != s) = a := by
  induction a with
  | nil => simp
  | cons x t ih =>
    have hx : x ≠ s := ha x (by simp)
    simp only [List.cons_append, List.takeWhile_cons]
    simp [hx, ih (fun c hc => ha c (by simp [hc]))]

theorem dropWhile_ne_append {s : Nat} (a v : List Nat) (ha : ∀ c ∈ a, c ≠ s) :
    (a ++ s :: v).dropWhile (fun c => c != s) = s :: v := by
  induction a with
  | nil => simp
  | cons x t ih =>
    have hx : x ≠ s := ha x (by simp)
    simp only [List.cons_append, List.dropWhile_cons]
    simp [hx, ih (fun c hc => ha c (by simp [hc]))]

theorem key_of_part {k : List Nat} (hk : ∀ c ∈ k, c ≠ 61) (v : List Nat) :
    key_of (k ++ 61 :: v) = k :=
  takeWhile_ne_append k v hk

theorem value_of_part {k : List Nat} (hk : ∀ c ∈ k, c ≠ 61) (v : List Nat) :
    value_of (k ++ 61 :: v) = v := by
  simp [value_of, dropWhile_ne_append k v hk]

theorem query_of_append {a : List Nat} (hk : ∀ c ∈ a, c ≠ 63) (q : List Nat) :
    query_of (a ++ 63 :: q) = q := by
  simp [query_of, dropWhile_ne_append a q hk]

/-- Bytes produced by `py_quote` are never the separators `&` (38) or `=`
(61): both are unsafe, so they only occur percent-encoded. -/
theorem py_quote_sep_free (v : List Nat) : ∀ c ∈ py_quote v, c ≠ 38 ∧ c ≠ 61 := by
  induction v with
  | nil => simp [py_quote]
  | cons b bs ih =>
    intro c hc
    rw [py_quote, List.mem_append] at hc
    rcases hc with hc | hc
    · by_cases hs : is_safe_byte b = true
      · rw [if_pos hs, List.mem_singleton] at hc
        subst hc
        simp only [is_safe_byte, decide_eq_true_eq] at hs
        omega
      · rw [if_neg hs] at hc
        simp only [List.mem_cons, List.mem_singleton, List.not_mem_nil, or_false] at hc
        have hd : ∀ n : Nat, hex_digit n ≠ 38 ∧ hex_digit n ≠ 61 := by
          intro n; unfold hex_digit; split <;> omega
        rcases hc with rfl | rfl | rfl
        · omega
        · exact hd _
        · exact hd _
    · exact ih c hc

theorem build_add_url_decomp (p : AddTaskInput) :
    build_add_url p =
      bytes "twodo://x-callback-url/add" ++ 63 :: List.intercalate [38] (query_parts p) := by
  have hbase : TWODO_BASE_URL ++ bytes "/add?" =
      bytes "twodo://x-callback-url/add" ++ [63] := by decide
  rw [build_add_url, List.append_assoc, ← List.append_assoc TWODO_BASE_URL, hbase]
  simp

theorem query_of_build_add_url (p : AddTaskInput) :
    query_of (build_add_url p) = List.intercalate [38] (query_parts p) := by
  rw [build_add_url_decomp]
  exact query_of_append (by decide) _

theorem not_mem_part {k w : List Nat} (hk : (38 : Nat) ∉ k) (hw : (38 : Nat) ∉ w) :
    (38 : Nat) ∉ k ++ 61 :: w := by
  intro h
  rcases List.mem_append.mp h with h | h
  · exact hk h
  · rcases List.mem_cons.mp h with h | h
    · omega
    · exact hw h

theorem py_quote_38_free (v : List Nat) : (38 : Nat) ∉ py_quote v :=
  fun hc => (py_quote_sep_free v 38 hc).1 rfl

theorem task_type_value_38_free (t : TaskType) : (38 : Nat) ∉ t.value := by
  cases t <;> decide

theorem priority_value_38_free (t : Priority) : (38 : Nat) ∉ t.value := by
  cases t <;> decide

theorem repeat_value_38_free (t : RepeatInterval) : (38 : Nat) ∉ t.value := by
  cases t <;> decide

theorem encode_entry_quoted_38 {k part : List Nat} {v : Option (List Nat)}
    (hk : (38 : Nat) ∉ k) (h : part ∈ encode_entry (k, v, Mode.quoted)) :
    (38 : Nat) ∉ part := by
  rcases v with _ | w
  · simp [encode_entry] at h
  · simp only [encode_entry, List.mem_singleton] at h
    subst h
    exact not_mem_part hk (py_quote_38_free w)

theorem encode_entry_value_38 {k part : List Nat} {v : Option (List Nat)}
    (hk : (38 : Nat) ∉ k) (hv : ∀ w, v = some w → (38 : Nat) ∉ w)
    (h : part ∈ encode_entry (k, v, Mode.value)) : (38 : Nat) ∉ part := by
  rcases v with _ | w
  · simp [encode_entry] at h
  · simp only [encode_entry, List.mem_singleton] at h
    subst h
    exact not_mem_part hk (hv w rfl)

theorem encode_entry_raw_38 {k part : List Nat} {v : Option (List Nat)}
    (hk : (38 : Nat) ∉ k) (hv : ∀ w, v = some w → (38 : Nat) ∉ w)
    (h : part ∈ encode_entry (k, v, Mode.raw)) : (38 : Nat) ∉ part := by
  rcases v with _ | w
  · simp [encode_entry] at h
  · simp only [encode_entry, List.mem_singleton] at h
    subst h
    exact not_mem_part hk (hv w rfl)

/-- No part emitted by `_build_add_url` contains a literal `&` (38). -/
theorem query_parts_sep_free (p : AddTaskInput) :
    ∀ part ∈ query_parts p, (38 : Nat) ∉ part := by
  intro part hp
  rw [query_parts, List.mem_cons] at hp
  rcases hp with rfl | hp
  · exact not_mem_part (by decide) (py_quote_38_free p.task)
  · rw [List.mem_flatMap] at hp
    obtain ⟨e, he, hpe⟩ := hp
    rw [field_map] at he
    fin_cases he
    · refine encode_entry_value_38 (by decide) ?_ hpe
      intro w hw
      split at hw
      · exact (Option.some_inj.mp hw) ▸ task_type_value_38_free _
      · exact absurd hw (by simp)
    · exact encode_entry_quoted_38 (by decide) hpe
    · exact encode_entry_quoted_38 (by decide) hpe
    · exact encode_entry_quoted_38 (by decide) hpe
    · refine encode_entry_value_38 (by decide) ?_ hpe
      intro w hw
      split at hw
      · exact (Option.some_inj.mp hw) ▸ priority_value_38_free _
      · exact absurd hw (by simp)
    · refine encode_entry_raw_38 (by decide) ?_ hpe
      intro w hw
      split at hw
      · exact (Option.some_inj.mp hw) ▸ (by decide)
      · exact absurd hw (by simp)
    · exact encode_entry_quoted_38 (by decide) hpe
    · exact encode_entry_quoted_38 (by decide) hpe
    · exact encode_entry_quoted_38 (by decide) hpe
    · exact encode_entry_quoted_38 (by decide) hpe
    · refine encode_entry_value_38 (by decide) ?_ hpe
      intro w hw
      obtain ⟨r, _, rfl⟩ := Option.map_eq_some'.mp hw
      exact repeat_value_38_free r
    · exact encode_entry_quoted_38 (by decide) hpe
    · exact encode_entry_quoted_38 (by decide) hpe
    · exact encode_entry_quoted_38 (by decide) hpe
    · refine encode_entry_raw_38 (by decide) ?_ hpe
      intro w hw
      split at hw
      · exact (Option.some_inj.mp hw) ▸ (by decide)
      · exact absurd hw (by simp)
    · refine encode_entry_raw_38 (by decide) ?_ hpe
      intro w hw
      split at hw
      · exact (Option.some_inj.mp hw) ▸ (by decide)
      · exact absurd hw (by simp)

/-- Splitting the query component of the produced URI on `&` recovers
exactly the parts `_build_add_url` joined. -/
theorem splitOn_query (p : AddTaskInput) :
    (query_of (build_add_url p)).splitOn 38 = query_parts p := by
  rw [query_of_build_add_url]
  exact List.splitOn_intercalate (query_parts p) 38
    (fun l hl h => query_parts_sep_free p l hl h) (by simp [query_parts])

theorem isSome_ite_some {c : Prop} [Decidable c] {x : List Nat} :
    ((if c then some x else none).isSome = true) ↔ c := by
  split <;> simp [*]

theorem countP_encode_entry {q k : List Nat} {v : Option (List Nat)} {m : Mode}
    (hk : ∀ c ∈ k, c ≠ 61) :
    (encode_entry (k, v, m)).countP (fun part => key_of part == q) =
      if v.isSome = true ∧ k = q then 1 else 0 := by
  rcases v with _ | w
  · simp [encode_entry]
  · have hkey : ∀ w2 : List Nat, key_of (k ++ 61 :: w2) = k := fun w2 => key_of_part hk w2
    cases m <;> simp [encode_entry, List.countP_cons, hkey, beq_iff_eq]

/-- Closed form for the number of `key`-keyed parts in the query produced
by `_build_add_url`: one term per `field_map` entry plus the mandatory
`task` part. -/
theorem count_key_query_parts (p : AddTaskInput) (q : List Nat) :
    count_key (query_parts p) q =
      (if bytes "task" = q then 1 else 0) +
      (if (p.task_type ≠ TaskType.TASK) ∧ bytes "type" = q then 1 else 0) +
      (if p.for_list.isSome = true ∧ bytes "forlist" = q then 1 else 0) +
      (if p.note.isSome = true ∧ bytes "note" = q then 1 else 0) +
      (if p.subtasks.isSome = true ∧ bytes "subtasks" = q then 1 else 0) +
      (if (p.priority ≠ Priority.NONE) ∧ bytes "priority" = q then 1 else 0) +
      (if p.starred = true ∧ bytes "starred" = q then 1 else 0) +
      (if p.tags.isSome = true ∧ bytes "tags" = q then 1 else 0) +
      (if p.due.isSome = true ∧ bytes "due" = q then 1 else 0) +
      (if p.due_time.isSome = true ∧ bytes "dueTime" = q then 1 else 0) +
      (if p.start.isSome = true ∧ bytes "start" = q then 1 else 0) +
      (if p.«repeat».isSome = true ∧ bytes "repeat" = q then 1 else 0) +
      (if p.action.isSome = true ∧ bytes "action" = q then 1 else 0) +
      (if p.for_parent_name.isSome = true ∧ bytes "forParentName" = q then 1 else 0) +
      (if p.for_parent_task.isSome = true ∧ bytes "forParentTask" = q then 1 else 0) +
      (if p.ignore_defaults = true ∧ bytes "ignoreDefaults" = q then 1 else 0) +
      (if p.save_in_clipboard = true ∧ bytes "saveInClipboard" = q then 1 else 0) := by
  rw [count_key, query_parts, field_map]
  simp only [List.flatMap_cons, List.flatMap_nil, List.append_nil, List.countP_cons,
    List.countP_append, List.countP_nil]
  rw [countP_encode_entry (k := bytes "type") (by decide),
    countP_encode_entry (k := bytes "forlist") (by decide),
    countP_encode_entry (k := bytes "note") (by decide),
    countP_encode_entry (k := bytes "subtasks") (by decide),
    countP_encode_entry (k := bytes "priority") (by decide),
    countP_encode_entry (k := bytes "starred") (by decide),
    countP_encode_entry (k := bytes "tags") (by decide),
    countP_encode_entry (k := bytes "due") (by decide),
    countP_encode_entry (k := bytes "dueTime") (by decide),
    countP_encode_entry (k := bytes "start") (by decide),
    countP_encode_entry (k := bytes "repeat") (by decide),
    countP_encode_entry (k := bytes "action") (by decide),
    countP_encode_entry (k := bytes "forParentName") (by decide),
    countP_encode_entry (k := bytes "forParentTask") (by decide),
    countP_encode_entry (k := bytes "ignoreDefaults") (by decide),
    countP_encode_entry (k := bytes "saveInClipboard") (by decide),
    key_of_part (k := bytes "task") (by decide)]
  simp only [isSome_ite_some, Option.isSome_map', Option.isSome_some, Option.isSome_none,
    beq_iff_eq, true_and]
  ring

/-- Modelled from the spec's words (§3 invariant): the fields of a request
paired with whether they hold a non-default value, where the defaults are
kind = Task, priority = None, false boolean flags, and absent optionals;
the required title counts as always non-default. -/
def spec_field_flags (p : AddTaskInput) : List (List Nat × Bool) :=
  [ (bytes "task", true),
    (bytes "type", decide (p.task_type ≠ TaskType.TASK)),
    (bytes "forlist", p.for_list.isSome),
    (bytes "note", p.note.isSome),
    (bytes "subtasks", p.subtasks.isSome),
    (bytes "priority", decide (p.priority ≠ Priority.NONE)),
    (bytes "starred", p.starred),
    (bytes "tags", p.tags.isSome),
    (bytes "due", p.due.isSome),
    (bytes "dueTime", p.due_time.isSome),
    (bytes "start", p.start.isSome),
    (bytes "repeat", p.«repeat».isSome),
    (bytes "action", p.action.isSome),
    (bytes "forParentName", p.for_parent_name.isSome),
    (bytes "forParentTask", p.for_parent_task.isSome),
    (bytes "ignoreDefaults", p.ignore_defaults),
    (bytes "saveInClipboard", p.save_in_clipboard) ]

/-- C1: for every validated `AddTaskInput`, the query string emitted by
`_build_add_url` contains a part for a field exactly when that field holds a
non-default value (defaults: kind = Task, priority = None, false boolean
flags, absent optionals), and then exactly one such part. -/
theorem c1_exactly_nondefault_fields_encoded (p : AddTaskInput) :
    ∀ kv ∈ spec_field_flags p,
      count_key ((query_of (build_add_url p)).splitOn 38) kv.1 =
        if kv.2 then 1 else 0 := by
  intro kv hkv
  rw [splitOn_query]
  simp only [spec_field_flags, List.mem_cons, List.not_mem_nil, or_false] at hkv
  rcases hkv with rfl | rfl | rfl | rfl | rfl | rfl | rfl | rfl | rfl | rfl | rfl | rfl |
    rfl | rfl | rfl | rfl | rfl <;>
    (rw [count_key_query_parts]; simp +decide)

/-- C1 witness: at a concrete request with a non-default priority, the
encoded query has exactly one `priority` part. -/
theorem c1_exactly_nondefault_fields_encoded_witness :
    count_key ((query_of (build_add_url
        { task := bytes "Urgent", priority := Priority.HIGH })).splitOn 38)
      (bytes "priority") = 1 := by
  have h := c1_exactly_nondefault_fields_encoded
    { task := bytes "Urgent", priority := Priority.HIGH }
    (bytes "priority", decide ((Priority.HIGH : Priority) ≠ Priority.NONE))
    (by simp [spec_field_flags])
  simpa using h

/-- C4: for every request, standard percent-decoding of the value paired
with the key `task` in the URI produced by `_build_add_url` yields the
original (already whitespace-trimmed) title. -/
theorem c4_task_value_roundtrip (p : AddTaskInput) (h : ∀ b ∈ p.task, b < 256) :
    (value_of_key (bytes "task") ((query_of (build_add_url p)).splitOn 38)).bind
      percent_decode = some p.task := by
  rw [splitOn_query, query_parts]
  have hk := key_of_part (k := bytes "task") (by decide) (py_quote p.task)
  have hv := value_of_part (k := bytes "task") (by decide) (py_quote p.task)
  simp [value_of_key, List.findSome?_cons, hk, hv, percent_decode_py_quote p.task h]

/-- C4 witness: a title containing `&`, `=`, a space and a colon
round-trips through the encoder. -/
theorem c4_task_value_roundtrip_witness :
    (value_of_key (bytes "task")
        ((query_of (build_add_url { task := bytes "a&b= :c" })).splitOn 38)).bind
      percent_decode = some (bytes "a&b= :c") :=
  c4_task_value_roundtrip { task := bytes "a&b= :c" } (by decide)

/-! ### The Process Bridge capabilities.

`_run_command` can end four ways as seen by `_open_url` / `_get_clipboard`:
the subprocess finishes (returncode, stdout, stderr), `asyncio.wait_for`
times out, the executable is missing (`FileNotFoundError`), or another
`OSError` is raised.  An `Env` records the outcome of the i-th `open`
invocation and the i-th `pbpaste` invocation of a call. -/

inductive RunOutcome
  | finished (returncode : Int) (stdout stderr : List Nat)
  | timedOut
  | fileNotFound
  | osError (msg : List Nat)

inductive ClipOutcome
  | finished (stdout : List Nat)
  | failed

structure Env where
  run_open : Nat → RunOutcome
  run_paste : Nat → ClipOutcome

/-- `_open_url` (server.py lines 74–90): success/diagnostic classification
of one `open <url>` invocation, with every listed exception caught. -/
def open_url_result : RunOutcome → Bool × List Nat
  | .finished rc _ stderr =>
    if rc = 0 then (true, bytes "OK")
    else (false, 39 :: bytes "open" ++ 39 :: bytes " command failed: " ++ stderr)
  | .timedOut => (false, bytes "Timed out waiting for 2Do to respond. Is the app installed?")
  | .fileNotFound =>
    (false, bytes "macOS " ++ 39 :: bytes "open" ++ 39 ::
      bytes " command not found. This server only runs on macOS.")
  | .osError m => (false, bytes "OS error: " ++ m)

/-- `_get_clipboard` (lines 93–99): stripped `pbpaste` output, or `""` on
any of the caught failures. -/
def get_clipboard : ClipOutcome → List Nat
  | .finished s => s
  | .failed => []

/-- `_read_task_uid` (lines 102–112) applied to the clipboard text it
read: the text if truthy and exactly `TASK_UID_LENGTH` long, else `None`. -/
def read_task_uid (clip : List Nat) : Option (List Nat) :=
  if clip ≠ [] ∧ clip.length = TASK_UID_LENGTH then some clip else none

/-! ### Response model: the JSON object handed to `json.dumps`. -/

inductive JsonVal
  | null
  | bool (b : Bool)
  | nat (n : Nat)
  | str (s : List Nat)
  | arr (xs : List JsonVal)
  | obj (fields : List (List Nat × JsonVal))

/-- `_error_response` (lines 115–117). -/
def error_response (message : List Nat) : JsonVal :=
  .obj [(bytes "success", .bool false), (bytes "error", .str message)]

/-- `_success_response` (lines 120–122). -/
def success_response (fields : List (List Nat × JsonVal)) : JsonVal :=
  .obj ((bytes "success", .bool true) :: fields)

def lookup_key : List (List Nat × JsonVal) → List Nat → Option JsonVal
  | [], _ => none
  | (k, v) :: rest, q => if k = q then some v else lookup_key rest q

/-- A ResponseEnvelope: a JSON object carrying a boolean `success` field
(the batch envelope reports per-item errors inside `results`, so no
top-level `error` field is required here). -/
def is_envelope : JsonVal → Bool
  | .obj fs =>
    match lookup_key fs (bytes "success") with
    | some (.bool _) => true
    | _ => false
  | _ => false

/-- Python's `x or "(default)"` on an optional string. -/
def py_or (x : Option (List Nat)) (d : List Nat) : List Nat :=
  match x with
  | none => d
  | some s => if s = [] then d else s

def json_uid : Option (List Nat) → JsonVal
  | none => .null
  | some u => .str u

/-- Side effects of one tool call that the claims talk about: how many
clipboard reads were performed. -/
structure Trace where
  clip_reads : Nat
  deriving DecidableEq

/-! ### MCP tools -/

/-- `twodo_add_task` (lines 352–393). -/
def twodo_add_task (env : Env) (params : AddTaskInput) : JsonVal × Trace :=
  let _url := build_add_url params
  let r := open_url_result (env.run_open 0)
  if r.1 then
    let uid_reads : Option (List Nat) × Nat :=
      if params.save_in_clipboard then
        (read_task_uid (get_clipboard (env.run_paste 0)), 1)
      else (none, 0)
    (success_response [(bytes "task", .str params.task),
      (bytes "list", .str (py_or params.for_list (bytes "(default)"))),
      (bytes "uid", json_uid uid_reads.1)], ⟨uid_reads.2⟩)
  else (error_response r.2, ⟨0⟩)

/-- `twodo_paste_tasks` (lines 463–495). -/
def twodo_paste_tasks (env : Env) (params : PasteTasksInput) : JsonVal × Trace :=
  let r := open_url_result (env.run_open 0)
  if r.1 then
    let task_count := ((params.text.splitOn 10).filter
      (fun line => !(py_strip line).isEmpty)).length
    (success_response [(bytes "project", .str params.in_project),
      (bytes "list", .str params.for_list),
      (bytes "tasks_added", .nat task_count)], ⟨0⟩)
  else (error_response r.2, ⟨0⟩)

/-- The user-facing error of `twodo_get_task_id` when no identifier was
captured. -/
def not_found_message (params : GetTaskIDInput) : List Nat :=
  bytes "Task " ++ 39 :: params.task ++ 39 :: bytes " not found in list " ++
    39 :: params.for_list ++ 39 ::
    bytes ". Check that the title matches exactly (case-sensitive)."

/-- `twodo_get_task_id` (lines 508–541). -/
def twodo_get_task_id (env : Env) (params : GetTaskIDInput) : JsonVal × Trace :=
  let r := open_url_result (env.run_open 0)
  if r.1 then
    match read_task_uid (get_clipboard (env.run_paste 0)) with
    | some uid =>
      (success_response [(bytes "task", .str params.task),
        (bytes "list", .str params.for_list), (bytes "uid", .str uid)], ⟨1⟩)
    | none => (error_response (not_found_message params), ⟨1⟩)
  else (error_response r.2, ⟨0⟩)

/-- `twodo_show_list` (lines 554–570). -/
def twodo_show_list (env : Env) (params : ShowListInput) : JsonVal × Trace :=
  let r := open_url_result (env.run_open 0)
  if r.1 then (success_response [(bytes "list", .str params.name)], ⟨0⟩)
  else (error_response r.2, ⟨0⟩)

/-- `twodo_show_today` (lines 583–592). -/
def twodo_show_today (env : Env) : JsonVal × Trace :=
  let r := open_url_result (env.run_open 0)
  if r.1 then (success_response [(bytes "view", .str (bytes "Today"))], ⟨0⟩)
  else (error_response r.2, ⟨0⟩)

/-- `twodo_show_starred` (lines 605–614). -/
def twodo_show_starred (env : Env) : JsonVal × Trace :=
  let r := open_url_result (env.run_open 0)
  if r.1 then (success_response [(bytes "view", .str (bytes "Starred"))], ⟨0⟩)
  else (error_response r.2, ⟨0⟩)

/-- `twodo_show_scheduled` (lines 627–636). -/
def twodo_show_scheduled (env : Env) : JsonVal × Trace :=
  let r := open_url_result (env.run_open 0)
  if r.1 then (success_response [(bytes "view", .str (bytes "Scheduled"))], ⟨0⟩)
  else (error_response r.2, ⟨0⟩)

/-- `twodo_show_all` (lines 649–658). -/
def twodo_show_all (env : Env) : JsonVal × Trace :=
  let r := open_url_result (env.run_open 0)
  if r.1 then (success_response [(bytes "view", .str (bytes "All"))], ⟨0⟩)
  else (error_response r.2, ⟨0⟩)

/-- `twodo_search` (lines 671–694). -/
def twodo_search (env : Env) (params : SearchInput) : JsonVal × Trace :=
  let r := open_url_result (env.run_open 0)
  if r.1 then
    (success_response [(bytes "query", .str params.text),
      (bytes "note", .str (bytes "Results displayed in 2Do app"))], ⟨0⟩)
  else (error_response r.2, ⟨0⟩)

/-! ### Batch creation (`twodo_add_multiple_tasks`), including the
per-item `AddTaskInput` construction, whose validation can raise. -/

/-- A Python exception escaping a tool body to the host framework. -/
inductive PyErr
  | validationError (msg : List Nat)
  deriving DecidableEq

/-- Modelled from the spec: the external schema-validation collaborator
(§6) applied to `AddTaskInput.task` as declared at server.py lines 131–142
(`str_strip_whitespace=True`, `min_length=1`, `max_length=500`); raising on
violation is documented by `tests/test_input_validation.py`
(`test_empty_title_rejected`, `test_long_title_rejected`).  The remaining
fields passed by the batch loop are unconstrained and cannot fail. -/
def validate_task_title (t : List Nat) : Except PyErr (List Nat) :=
  let s := py_strip t
  if s.length < 1 then
    .error (.validationError (bytes "String should have at least 1 character"))
  else if 500 < s.length then
    .error (.validationError (bytes "String should have at most 500 characters"))
  else .ok s

/-- Titles the per-item validation accepts. -/
def title_ok (t : List Nat) : Bool :=
  decide (1 ≤ (py_strip t).length) && decide ((py_strip t).length ≤ 500)

/-- One per-item result dict of the batch loop. -/
structure BatchItem where
  task : List Nat
  ok : Bool
  err : Option (List Nat)

def batch_item_json (it : BatchItem) : JsonVal :=
  .obj [(bytes "task", .str it.task), (bytes "success", .bool it.ok),
    (bytes "error", match it.err with | none => .null | some m => .str m)]

/-- The loop of `twodo_add_multiple_tasks` (lines 426–438): for the i-th
title construct an `AddTaskInput` (validation may raise), build its URL,
launch it, record the per-item outcome, and continue regardless of the
launch outcome. -/
def batch_loop (env : Env) (p : AddMultipleTasksInput) :
    Nat → List (List Nat) → Except PyErr (List BatchItem)
  | _, [] => .ok []
  | i, t :: ts => do
    let title ← validate_task_title t
    let task_input : AddTaskInput :=
      { task := title, for_list := p.for_list, priority := p.priority,
        tags := p.tags, due := p.due, save_in_clipboard := false }
    let _url := build_add_url task_input
    let r := open_url_result (env.run_open i)
    let rest ← batch_loop env p (i + 1) ts
    .ok ({ task := t, ok := r.1, err := if r.1 then none else some r.2 } :: rest)

/-- `twodo_add_multiple_tasks` (lines 406–450); a `.error` result is an
exception escaping to the host framework. -/
def twodo_add_multiple_tasks (env : Env) (p : AddMultipleTasksInput) :
    Except PyErr (JsonVal × Trace) := do
  let results ← batch_loop env p 0 p.tasks
  let successful := (results.filter (fun r => r.ok)).length
  .ok (.obj [
    (bytes "success", .bool (successful == p.tasks.length)),
    (bytes "total", .nat p.tasks.length),
    (bytes "successful", .nat successful),
    (bytes "failed", .nat (p.tasks.length - successful)),
    (bytes "results", .arr (results.map batch_item_json))], ⟨0⟩)

/-- Closed form of the loop's results when every title validates. -/
def batch_pure (env : Env) : Nat → List (List Nat) → List BatchItem
  | _, [] => []
  | i, t :: ts =>
    let r := open_url_result (env.run_open i)
    { task := t, ok := r.1, err := if r.1 then none else some r.2 } ::
      batch_pure env (i + 1) ts

theorem validate_task_title_ok {t : List Nat} (h : title_ok t = true) :
    validate_task_title t = .ok (py_strip t) := by
  simp only [title_ok, Bool.and_eq_true, decide_eq_true_eq] at h
  rw [validate_task_title]
  simp only [if_neg (by omega : ¬(py_strip t).length < 1),
    if_neg (by omega : ¬500 < (py_strip t).length)]

theorem batch_loop_eq_pure (env : Env) (p : AddMultipleTasksInput) :
    ∀ (ts : List (List Nat)) (i : Nat), (∀ t ∈ ts, title_ok t = true) →
      batch_loop env p i ts = .ok (batch_pure env i ts) := by
  intro ts
  induction ts with
  | nil => intro i _; rfl
  | cons t ts ih =>
    intro i h
    have ht := validate_task_title_ok (h t (by simp))
    have hrest := ih (i + 1) (fun x hx => h x (by simp [hx]))
    simp [batch_loop, batch_pure, ht, hrest, Bind.bind, Except.bind]

theorem batch_pure_length (env : Env) (i : Nat) (ts : List (List Nat)) :
    (batch_pure env i ts).length = ts.length := by
  induction ts generalizing i with
  | nil => rfl
  | cons t ts ih => simp [batch_pure, ih]

theorem batch_pure_map_task (env : Env) (i : Nat) (ts : List (List Nat)) :
    (batch_pure env i ts).map BatchItem.task = ts := by
  induction ts generalizing i with
  | nil => rfl
  | cons t ts ih => simp [batch_pure, ih]

theorem batch_pure_get (env : Env) :
    ∀ (ts : List (List Nat)) (j i : Nat) (hj : j < ts.length)
      (hj2 : j < (batch_pure env i ts).length),
      (batch_pure env i ts).get ⟨j, hj2⟩ =
        { task := ts.get ⟨j, hj⟩,
          ok := (open_url_result (env.run_open (i + j))).1,
          err := if (open_url_result (env.run_open (i + j))).1 then none
                 else some (open_url_result (env.run_open (i + j))).2 } := by
  intro ts
  induction ts with
  | nil => intro j i hj _; exact absurd hj (by simp)
  | cons t ts ih =>
    intro j i hj hj2
    cases j with
    | zero => simp [batch_pure]
    | succ j =>
      have hj' : j < ts.length := by simpa using hj
      have hj2' : j < (batch_pure env (i + 1) ts).length := by
        simpa [batch_pure] using hj2
      have harith : i + 1 + j = i + (j + 1) := by omega
      simpa [batch_pure, harith] using ih j (i + 1) hj' hj2'

/-- When every title validates, the batch tool returns the aggregated
envelope over `batch_pure`. -/
theorem twodo_add_multiple_tasks_ok (env : Env) (p : AddMultipleTasksInput)
    (h : ∀ t ∈ p.tasks, title_ok t = true) :
    twodo_add_multiple_tasks env p = .ok (.obj [
      (bytes "success",
        .bool (((batch_pure env 0 p.tasks).filter (fun r => r.ok)).length == p.tasks.length)),
      (bytes "total", .nat p.tasks.length),
      (bytes "successful", .nat ((batch_pure env 0 p.tasks).filter (fun r => r.ok)).length),
      (bytes "failed",
        .nat (p.tasks.length - ((batch_pure env 0 p.tasks).filter (fun r => r.ok)).length)),
      (bytes "results", .arr ((batch_pure env 0 p.tasks).map batch_item_json))], ⟨0⟩) := by
  simp [twodo_add_multiple_tasks, batch_loop_eq_pure env p p.tasks 0 h, Bind.bind, Except.bind]

/-! ### Concrete environments used by closed theorems -/

/-- Every launch succeeds; the clipboard holds 32 `A` bytes. -/
def env_ok : Env :=
  { run_open := fun _ => .finished 0 [] [], run_paste := fun _ => .finished (List.replicate 32 65) }

/-- Every launch times out. -/
def env_fail : Env :=
  { run_open := fun _ => .timedOut, run_paste := fun _ => .failed }

/-- Every launch succeeds; the clipboard read fails (empty string). -/
def env_noclip : Env :=
  { run_open := fun _ => .finished 0 [] [], run_paste := fun _ => .failed }

/-- The first launch succeeds, later ones time out. -/
def env_mixed : Env :=
  { run_open := fun i => if i = 0 then .finished 0 [] [] else .timedOut,
    run_paste := fun _ => .failed }

/-- C2 counterexample: a validated batch request may contain an empty
title (item titles carry no length constraint), and constructing its
per-item `AddTaskInput` raises a validation error that escapes the tool
instead of being converted to a ResponseEnvelope. -/
theorem c2_batch_validation_error_escapes :
    twodo_add_multiple_tasks env_fail { tasks := [[]] } =
      .error (.validationError (bytes "String should have at least 1 character")) := rfl

/-- C2 (amended): every tool converts every bridge outcome into a
ResponseEnvelope; the batch tool does so provided each of its titles passes
the per-item validation (non-empty and at most 500 bytes after trimming). -/
theorem c2_all_outcomes_yield_envelopes :
    (∀ (env : Env) (p : AddTaskInput), is_envelope (twodo_add_task env p).1 = true) ∧
    (∀ (env : Env) (p : PasteTasksInput), is_envelope (twodo_paste_tasks env p).1 = true) ∧
    (∀ (env : Env) (p : GetTaskIDInput), is_envelope (twodo_get_task_id env p).1 = true) ∧
    (∀ (env : Env) (p : ShowListInput), is_envelope (twodo_show_list env p).1 = true) ∧
    (∀ env : Env, is_envelope (twodo_show_today env).1 = true) ∧
    (∀ env : Env, is_envelope (twodo_show_starred env).1 = true) ∧
    (∀ env : Env, is_envelope (twodo_show_scheduled env).1 = true) ∧
    (∀ env : Env, is_envelope (twodo_show_all env).1 = true) ∧
    (∀ (env : Env) (p : SearchInput), is_envelope (twodo_search env p).1 = true) ∧
    (∀ (env : Env) (p : AddMultipleTasksInput), (∀ t ∈ p.tasks, title_ok t = true) →
      ∃ j tr, twodo_add_multiple_tasks env p = .ok (j, tr) ∧ is_envelope j = true) := by
  refine ⟨?_, ?_, ?_, ?_, ?_, ?_, ?_, ?_, ?_, ?_⟩
  · intro env p; simp only [twodo_add_task]; split <;> rfl
  · intro env p; simp only [twodo_paste_tasks]; split <;> rfl
  · intro env p
    simp only [twodo_get_task_id]
    split
    · split <;> rfl
    · rfl
  · intro env p; simp only [twodo_show_list]; split <;> rfl
  · intro env; simp only [twodo_show_today]; split <;> rfl
  · intro env; simp only [twodo_show_starred]; split <;> rfl
  · intro env; simp only [twodo_show_scheduled]; split <;> rfl
  · intro env; simp only [twodo_show_all]; split <;> rfl
  · intro env p; simp only [twodo_search]; split <;> rfl
  · intro env p h
    exact ⟨_, _, twodo_add_multiple_tasks_ok env p h, rfl⟩

/-- C2 witness: a valid batch request at a concrete environment does get an
envelope back. -/
theorem c2_all_outcomes_yield_envelopes_witness :
    ∃ j tr, twodo_add_multiple_tasks env_fail { tasks := [bytes "A"] } = .ok (j, tr) ∧
      is_envelope j = true :=
  c2_all_outcomes_yield_envelopes.2.2.2.2.2.2.2.2.2 env_fail { tasks := [bytes "A"] }
    (by decide)

/-- C3: after a successful launch, `twodo_get_task_id` succeeds with exactly
the clipboard text as uid when that text is exactly 32 bytes long, and
fails with the "not found" error for any other clipboard length (the
off-length text is never returned). -/
theorem c3_get_task_id_uid_classification (env : Env) (p : GetTaskIDInput)
    (hlaunch : (open_url_result (env.run_open 0)).1 = true) :
    ((get_clipboard (env.run_paste 0)).length = TASK_UID_LENGTH →
      twodo_get_task_id env p = (success_response [(bytes "task", .str p.task),
        (bytes "list", .str p.for_list),
        (bytes "uid", .str (get_clipboard (env.run_paste 0)))], ⟨1⟩)) ∧
    ((get_clipboard (env.run_paste 0)).length ≠ TASK_UID_LENGTH →
      twodo_get_task_id env p = (error_response (not_found_message p), ⟨1⟩)) := by
  constructor
  · intro hlen
    have hne : get_clipboard (env.run_paste 0) ≠ [] := by
      intro hnil; rw [hnil] at hlen; simp [TASK_UID_LENGTH] at hlen
    simp [twodo_get_task_id, hlaunch, read_task_uid, hne, hlen]
  · intro hlen
    simp [twodo_get_task_id, hlaunch, read_task_uid, hlen]

/-- C3 witness: with a 32-byte clipboard the uid is returned; with a failed
(empty) clipboard read the "not found" error is returned. -/
theorem c3_get_task_id_uid_classification_witness :
    twodo_get_task_id env_ok { task := bytes "T", for_list := bytes "L" } =
      (success_response [(bytes "task", .str (bytes "T")),
        (bytes "list", .str (bytes "L")),
        (bytes "uid", .str (List.replicate 32 65))], ⟨1⟩) ∧
    twodo_get_task_id env_noclip { task := bytes "T", for_list := bytes "L" } =
      (error_response (not_found_message { task := bytes "T", for_list := bytes "L" }), ⟨1⟩) :=
  ⟨(c3_get_task_id_uid_classification env_ok
      { task := bytes "T", for_list := bytes "L" } rfl).1 (by decide),
   (c3_get_task_id_uid_classification env_noclip
      { task := bytes "T", for_list := bytes "L" } rfl).2 (by decide)⟩

/-- C6: a create request with `save_in_clipboard = false` whose launch
succeeds performs no clipboard read and returns a success envelope with a
null uid. -/
theorem c6_no_clipboard_read_when_disabled (env : Env) (p : AddTaskInput)
    (hs : p.save_in_clipboard = false)
    (hlaunch : (open_url_result (env.run_open 0)).1 = true) :
    twodo_add_task env p = (success_response [(bytes "task", .str p.task),
      (bytes "list", .str (py_or p.for_list (bytes "(default)"))),
      (bytes "uid", JsonVal.null)], ⟨0⟩) := by
  simp [twodo_add_task, hlaunch, hs, json_uid]

/-- C6 witness. -/
theorem c6_no_clipboard_read_when_disabled_witness :
    twodo_add_task env_ok { task := bytes "T", save_in_clipboard := false } =
      (success_response [(bytes "task", .str (bytes "T")),
        (bytes "list", .str (bytes "(default)")),
        (bytes "uid", JsonVal.null)], ⟨0⟩) :=
  c6_no_clipboard_read_when_disabled env_ok
    { task := bytes "T", save_in_clipboard := false } rfl rfl

set_option maxRecDepth 4000

/-- C5 counterexample: a batch title of 501 bytes is accepted by the batch
model but rejected by the per-item validation, so the call raises instead
of producing any per-item results. -/
theorem c5_oversized_title_no_response :
    twodo_add_multiple_tasks env_ok { tasks := [List.replicate 501 120] } =
      .error (.validationError (bytes "String should have at most 500 characters")) := by
  rfl

/-- C5 (amended): for every batch request with 1–50 titles that each pass
the per-item validation, and every sequence of launch outcomes, the
response has exactly N per-item results, `successful + failed = N`,
overall success iff `failed = 0`, and the j-th item's outcome equals the
j-th launch outcome (one failure never aborts the remaining items). -/
theorem c5_batch_aggregation (env : Env) (p : AddMultipleTasksInput)
    (hN1 : 1 ≤ p.tasks.length) (hN2 : p.tasks.length ≤ 50)
    (h : ∀ t ∈ p.tasks, title_ok t = true) :
    ∃ results : List BatchItem,
      twodo_add_multiple_tasks env p = .ok (.obj [
        (bytes "success",
          .bool ((results.filter (fun r => r.ok)).length == p.tasks.length)),
        (bytes "total", .nat p.tasks.length),
        (bytes "successful", .nat (results.filter (fun r => r.ok)).length),
        (bytes "failed",
          .nat (p.tasks.length - (results.filter (fun r => r.ok)).length)),
        (bytes "results", .arr (results.map batch_item_json))], ⟨0⟩) ∧
      results.length = p.tasks.length ∧
      (results.filter (fun r => r.ok)).length +
        (p.tasks.length - (results.filter (fun r => r.ok)).length) = p.tasks.length ∧
      (((results.filter (fun r => r.ok)).length == p.tasks.length) = true ↔
        p.tasks.length - (results.filter (fun r => r.ok)).length = 0) ∧
      ∀ (j : Nat) (hj2 : j < results.length),
        (results.get ⟨j, hj2⟩).ok = (open_url_result (env.run_open j)).1 := by
  have hlen := batch_pure_length env 0 p.tasks
  have hle := List.length_filter_le (fun r => r.ok) (batch_pure env 0 p.tasks)
  refine ⟨batch_pure env 0 p.tasks, twodo_add_multiple_tasks_ok env p h, hlen, by omega,
    ?_, ?_⟩
  · rw [beq_iff_eq]; omega
  · intro j hj2
    have hj : j < p.tasks.length := by omega
    rw [batch_pure_get env p.tasks j 0 hj hj2]
    simp

/-- C5 witness: two valid titles, first launch succeeds, second times out. -/
theorem c5_batch_aggregation_witness :
    ∃ results : List BatchItem,
      twodo_add_multiple_tasks env_mixed { tasks := [bytes "A", bytes "B"] } = .ok (.obj [
        (bytes "success", .bool ((results.filter (fun r => r.ok)).length == 2)),
        (bytes "total", .nat 2),
        (bytes "successful", .nat (results.filter (fun r => r.ok)).length),
        (bytes "failed", .nat (2 - (results.filter (fun r => r.ok)).length)),
        (bytes "results", .arr (results.map batch_item_json))], ⟨0⟩) ∧
      results.length = 2 ∧
      (results.filter (fun r => r.ok)).length +
        (2 - (results.filter (fun r => r.ok)).length) = 2 ∧
      (((results.filter (fun r => r.ok)).length == 2) = true ↔
        2 - (results.filter (fun r => r.ok)).length = 0) ∧
      ∀ (j : Nat) (hj2 : j < results.length),
        (results.get ⟨j, hj2⟩).ok = (open_url_result (env_mixed.run_open j)).1 :=
  c5_batch_aggregation env_mixed { tasks := [bytes "A", bytes "B"] }
    (by decide) (by decide) (by decide)

/-! ### Non-blank-line counting (`twodo_paste_tasks`) -/

theorem all_dropWhile_iff (q : Nat → Bool) (l : List Nat) :
    (∀ x ∈ l.dropWhile q, q x = true) ↔ ∀ x ∈ l, q x = true := by
  constructor
  · intro h x hx
    have hx2 : x ∈ l.takeWhile q ++ l.dropWhile q := by
      rw [List.takeWhile_append_dropWhile]; exact hx
    rcases List.mem_append.mp hx2 with h1 | h1
    · exact List.mem_takeWhile_imp h1
    · exact h x h1
  · intro h x hx
    exact h x ((List.dropWhile_sublist q).subset hx)

theorem py_strip_eq_nil_iff (l : List Nat) :
    py_strip l = [] ↔ ∀ x ∈ l, is_space_byte x = true := by
  simp only [py_strip, List.reverse_eq_nil_iff, List.dropWhile_eq_nil_iff,
    List.mem_reverse]
  exact all_dropWhile_iff _ _

/-- A line survives the paste filter (`line.strip()` truthy) exactly when
it contains at least one non-whitespace byte. -/
theorem strip_nonempty_eq_any (l : List Nat) :
    (!(py_strip l).isEmpty) = l.any (fun c => !is_space_byte c) := by
  cases hany : l.any (fun c => !is_space_byte c) with
  | false =>
    have hall : ∀ x ∈ l, is_space_byte x = true := by
      intro x hx
      have := List.any_eq_false.mp hany x hx
      simpa using this
    have hnil : py_strip l = [] := (py_strip_eq_nil_iff l).mpr hall
    simp [hnil]
  | true =>
    have hne : py_strip l ≠ [] := by
      intro hnil
      obtain ⟨x, hx, hxs⟩ := List.any_eq_true.mp hany
      have := (py_strip_eq_nil_iff l).mp hnil x hx
      simp [this] at hxs
    simp [List.isEmpty_iff, hne]

/-- C7: after a successful launch, the paste tool reports exactly the
number of lines of the input that contain a non-whitespace character. -/
theorem c7_paste_reports_nonblank_lines (env : Env) (p : PasteTasksInput)
    (hlaunch : (open_url_result (env.run_open 0)).1 = true) :
    twodo_paste_tasks env p = (success_response [
      (bytes "project", .str p.in_project),
      (bytes "list", .str p.for_list),
      (bytes "tasks_added", .nat ((p.text.splitOn 10).countP
        (fun line => line.any (fun c => !is_space_byte c))))], ⟨0⟩) := by
  have hcount : ((p.text.splitOn 10).filter (fun line => !(py_strip line).isEmpty)).length
      = (p.text.splitOn 10).countP (fun line => line.any (fun c => !is_space_byte c)) := by
    rw [← List.countP_eq_length_filter]
    exact List.countP_congr (fun line _ => by rw [strip_nonempty_eq_any])
  simp [twodo_paste_tasks, hlaunch, hcount]

/-- C7 witness: the spec's example input yields `tasks_added = 3`. -/
theorem c7_paste_reports_nonblank_lines_witness :
    twodo_paste_tasks env_ok
        { text := bytes "A\n\nB\n  \nC", in_project := bytes "P", for_list := bytes "L" } =
      (success_response [(bytes "project", .str (bytes "P")),
        (bytes "list", .str (bytes "L")),
        (bytes "tasks_added", .nat 3)], ⟨0⟩) :=
  c7_paste_reports_nonblank_lines env_ok
    { text := bytes "A\n\nB\n  \nC", in_project := bytes "P", for_list := bytes "L" } rfl

/-- C8: whenever the launch capability reports failure, each single-launch
tool returns the failure envelope carrying the bridge's diagnostic verbatim
and performs no clipboard read; in the batch tool (titles valid) a failing
j-th launch makes the overall `success` false and puts that diagnostic
verbatim in the j-th per-item result, again with no clipboard read. -/
theorem c8_launch_failure_yields_diagnostic :
    (∀ (env : Env) (p : AddTaskInput), (open_url_result (env.run_open 0)).1 = false →
      twodo_add_task env p = (error_response (open_url_result (env.run_open 0)).2, ⟨0⟩)) ∧
    (∀ (env : Env) (p : PasteTasksInput), (open_url_result (env.run_open 0)).1 = false →
      twodo_paste_tasks env p = (error_response (open_url_result (env.run_open 0)).2, ⟨0⟩)) ∧
    (∀ (env : Env) (p : GetTaskIDInput), (open_url_result (env.run_open 0)).1 = false →
      twodo_get_task_id env p = (error_response (open_url_result (env.run_open 0)).2, ⟨0⟩)) ∧
    (∀ (env : Env) (p : ShowListInput), (open_url_result (env.run_open 0)).1 = false →
      twodo_show_list env p = (error_response (open_url_result (env.run_open 0)).2, ⟨0⟩)) ∧
    (∀ env : Env, (open_url_result (env.run_open 0)).1 = false →
      twodo_show_today env = (error_response (open_url_result (env.run_open 0)).2, ⟨0⟩)) ∧
    (∀ env : Env, (open_url_result (env.run_open 0)).1 = false →
      twodo_show_starred env = (error_response (open_url_result (env.run_open 0)).2, ⟨0⟩)) ∧
    (∀ env : Env, (open_url_result (env.run_open 0)).1 = false →
      twodo_show_scheduled env = (error_response (open_url_result (env.run_open 0)).2, ⟨0⟩)) ∧
    (∀ env : Env, (open_url_result (env.run_open 0)).1 = false →
      twodo_show_all env = (error_response (open_url_result (env.run_open 0)).2, ⟨0⟩)) ∧
    (∀ (env : Env) (p : SearchInput), (open_url_result (env.run_open 0)).1 = false →
      twodo_search env p = (error_response (open_url_result (env.run_open 0)).2, ⟨0⟩)) ∧
    (∀ (env : Env) (p : AddMultipleTasksInput) (j : Nat), j < p.tasks.length →
      (∀ t ∈ p.tasks, title_ok t = true) →
      (open_url_result (env.run_open j)).1 = false →
      ∃ results : List BatchItem,
        twodo_add_multiple_tasks env p = .ok (.obj [
          (bytes "success", .bool false),
          (bytes "total", .nat p.tasks.length),
          (bytes "successful", .nat (results.filter (fun r => r.ok)).length),
          (bytes "failed",
            .nat (p.tasks.length - (results.filter (fun r => r.ok)).length)),
          (bytes "results", .arr (results.map batch_item_json))], ⟨0⟩) ∧
        ∀ (hj2 : j < results.length),
          (results.get ⟨j, hj2⟩).err = some (open_url_result (env.run_open j)).2) := by
  refine ⟨?_, ?_, ?_, ?_, ?_, ?_, ?_, ?_, ?_, ?_⟩
  · intro env p hf; simp [twodo_add_task, hf]
  · intro env p hf; simp [twodo_paste_tasks, hf]
  · intro env p hf; simp [twodo_get_task_id, hf]
  · intro env p hf; simp [twodo_show_list, hf]
  · intro env hf; simp [twodo_show_today, hf]
  · intro env hf; simp [twodo_show_starred, hf]
  · intro env hf; simp [twodo_show_scheduled, hf]
  · intro env hf; simp [twodo_show_all, hf]
  · intro env p hf; simp [twodo_search, hf]
  · intro env p j hj h hfail
    have hok := twodo_add_multiple_tasks_ok env p h
    have hlen := batch_pure_length env 0 p.tasks
    have hjp : j < (batch_pure env 0 p.tasks).length := by omega
    have hitem := batch_pure_get env p.tasks j 0 hj hjp
    have hnotok : ((batch_pure env 0 p.tasks).get ⟨j, hjp⟩).ok = false := by
      rw [hitem]; simpa using hfail
    have hSne : ((batch_pure env 0 p.tasks).filter (fun r => r.ok)).length ≠
        p.tasks.length := by
      intro hSN
      have hcount : (batch_pure env 0 p.tasks).countP (fun r => r.ok) =
          (batch_pure env 0 p.tasks).length := by
        rw [List.countP_eq_length_filter]; omega
      have hall := List.countP_eq_length.mp hcount
      have hmem : (batch_pure env 0 p.tasks).get ⟨j, hjp⟩ ∈ batch_pure env 0 p.tasks :=
        List.get_mem _ _ hjp
      have := hall _ hmem
      rw [hnotok] at this
      simp at this
    have hbeq : (((batch_pure env 0 p.tasks).filter (fun r => r.ok)).length ==
        p.tasks.length) = false := by
      simpa using hSne
    refine ⟨batch_pure env 0 p.tasks, ?_, ?_⟩
    · rw [hok, hbeq]
    · intro hj2
      rw [batch_pure_get env p.tasks j 0 hj hj2]
      simp [hfail]

/-- C8 witness: a timed-out launch of `twodo_add_task` yields exactly the
timeout diagnostic with no clipboard read. -/
theorem c8_launch_failure_yields_diagnostic_witness :
    twodo_add_task env_fail { task := bytes "T" } =
      (error_response
        (bytes "Timed out waiting for 2Do to respond. Is the app installed?"), ⟨0⟩) :=
  c8_launch_failure_yields_diagnostic.1 env_fail { task := bytes "T" } rfl

/-- The spec's end-to-end example request: title `"Meeting"`, due
`"2026-03-01"`, due time `"14:30"`, every other field at its default. -/
def c9_request : AddTaskInput :=
  { task := bytes "Meeting"
    due := some (bytes "2026-03-01")
    due_time := some (bytes "14:30") }

/-- C9: the spec's end-to-end example. The URI for title `"Meeting"`, due
`"2026-03-01"`, due time `"14:30"` contains the contiguous substring
`task=Meeting&due=2026-03-01&dueTime=14%3A30` in that stable key order,
and with a successful launch plus a 32-`A` clipboard the envelope is a
success carrying task `"Meeting"`, list `"(default)"` and that uid. -/
theorem c9_end_to_end_meeting_example :
    List.IsInfix (bytes "task=Meeting&due=2026-03-01&dueTime=14%3A30")
      (build_add_url c9_request) ∧
    twodo_add_task env_ok c9_request =
      (success_response [(bytes "task", .str (bytes "Meeting")),
        (bytes "list", .str (bytes "(default)")),
        (bytes "uid", .str (List.replicate 32 65))], ⟨1⟩) := by
  constructor
  · exact ⟨bytes "twodo://x-callback-url/add?", bytes "&saveInClipboard=1", by decide⟩
  · rfl

/-- C10 counterexample: an empty second title makes the batch call raise a
validation error, so no results array (preserving order or otherwise) is
produced for that request. -/
theorem c10_empty_title_aborts_batch :
    twodo_add_multiple_tasks env_ok { tasks := [bytes "ok", []] } =
      .error (.validationError (bytes "String should have at least 1 character")) := rfl

/-- C10 (amended): for every batch request whose titles all pass the
per-item validation, the results array lists the input titles in order,
whatever the launch outcomes. -/
theorem c10_batch_results_preserve_order (env : Env) (p : AddMultipleTasksInput)
    (h : ∀ t ∈ p.tasks, title_ok t = true) :
    ∃ results : List BatchItem,
      twodo_add_multiple_tasks env p = .ok (.obj [
        (bytes "success",
          .bool ((results.filter (fun r => r.ok)).length == p.tasks.length)),
        (bytes "total", .nat p.tasks.length),
        (bytes "successful", .nat (results.filter (fun r => r.ok)).length),
        (bytes "failed",
          .nat (p.tasks.length - (results.filter (fun r => r.ok)).length)),
        (bytes "results", .arr (results.map batch_item_json))], ⟨0⟩) ∧
      results.map BatchItem.task = p.tasks :=
  ⟨batch_pure env 0 p.tasks, twodo_add_multiple_tasks_ok env p h,
    batch_pure_map_task env 0 p.tasks⟩

/-- C10 witness: two titles with every launch failing still come back in
input order. -/
theorem c10_batch_results_preserve_order_witness :
    ∃ results : List BatchItem,
      twodo_add_multiple_tasks env_fail { tasks := [bytes "X", bytes "Y"] } = .ok (.obj [
        (bytes "success", .bool ((results.filter (fun r => r.ok)).length == 2)),
        (bytes "total", .nat 2),
        (bytes "successful", .nat (results.filter (fun r => r.ok)).length),
        (bytes "failed", .nat (2 - (results.filter (fun r => r.ok)).length)),
        (bytes "results", .arr (results.map batch_item_json))], ⟨0⟩) ∧
      results.map BatchItem.task = [bytes "X", bytes "Y"] :=
  c10_batch_results_preserve_order env_fail { tasks := [bytes "X", bytes "Y"] } (by decide)

end Twodo
